import Mathlib

/-!
Verification of the RAG retrieval-and-conversation engine of
`src/services/rag_service.py` (class `RAGService`).

Shallow embedding conventions:
* Python strings are Lean `String`s; Python `needle in hay` on strings is
  `strContains hay needle` (substring containment, empty needle matches).
* Python ints are `Int`; Python truthiness of an int is `≠ 0`, of a string
  is `≠ ""`, of `None`/lists via `Option`/`List.isEmpty`.
* The SentenceTransformer encoder and sklearn's `cosine_similarity` are
  external numeric capabilities; they are modelled as an opaque environment
  `EmbedEnv` providing `encode : String → List ℚ` and
  `cosSim : List ℚ → List ℚ → ℚ` (floats modelled as rationals).
* `np.argsort` is modelled as a stable ascending sort of the indices
  (ties in ascending index order).  NumPy's default introsort is not
  guaranteed stable, so this is the tie behaviour most favourable to the
  specification's stable-tie claim; the theorems below show the claim
  fails even under this favourable model, because the code reverses the
  ascending result.  A Python slice `a[-k:]` is `lastSlice k a`
  (note `a[-0:]` is the whole list).
* `np.argmax` returns the first index attaining the maximum (`argmaxIdx`).
* Firestore's `order_by('timestamp')` is ascending order (the Firestore
  default) and `.limit(n)` keeps the first `n` results of the ordered
  stream; `SERVER_TIMESTAMP` is modelled as a value strictly larger than
  every timestamp already in the user's collection.
* `requests` timeouts / transport errors and the parsed JSON body of the
  Gemini call are modelled by `HttpOutcome`; an uncaught Python `KeyError`
  is `Except.error PyErr.keyError`.
-/

/-- Python's substring test `needle in hay` on lists of characters:
the needle is a prefix of the hay or occurs in its tail; the empty needle
is contained in every string. -/
def infixOfB (needle : List Char) : List Char → Bool
  | [] => needle.isEmpty
  | c :: rest => needle.isPrefixOf (c :: rest) || infixOfB needle rest

/-- Python's `needle in hay` for strings. -/
def strContains (hay needle : String) : Bool :=
  infixOfB needle.data hay.data

/-- Python's `str.lower()`, modelled character-wise (all strings in the
program are ASCII). -/
def strLower (s : String) : String := ⟨s.data.map Char.toLower⟩

/-- One entry of `LOCAL_KNOWLEDGE_BASE` (a Python dict with the five keys
used by the service). -/
structure KnowledgeEntry where
  grade : Int
  subject : String
  chapter_number : Int
  chapter_name : String
  content : String
deriving DecidableEq, Repr, Inhabited

/-- The hard-coded educational catalog `LOCAL_KNOWLEDGE_BASE`
(`src/services/rag_service.py` lines 119-309), in source order. -/
def LOCAL_KNOWLEDGE_BASE : List KnowledgeEntry := [
  ⟨1, "Math", 1, "Basic Counting",
    "First grade math focuses on counting numbers 1-100, basic addition and subtraction within 20, and understanding place value. Students learn to recognize and write numbers, compare quantities, and solve simple word problems."⟩,
  ⟨1, "Science", 1, "Living vs Non-living",
    "First grade science introduces the difference between living and non-living things. Students learn about basic needs of living things like food, water, air, and shelter. They explore plants, animals, and their habitats."⟩,
  ⟨1, "English", 1, "Phonics and Reading",
    "First grade English focuses on phonics, sight words, and basic reading skills. Students learn letter sounds, blend consonants and vowels, and read simple sentences. Writing includes forming letters and writing simple words."⟩,
  ⟨2, "Math", 1, "Addition and Subtraction",
    "Second grade math extends addition and subtraction skills to 100, introduces regrouping, and covers basic geometry shapes. Students work with money, time, and measurement using standard units."⟩,
  ⟨2, "Science", 1, "Weather and Seasons",
    "Second grade science covers weather patterns, seasons, and their effects on living things. Students learn about different types of weather, how to measure weather conditions, and seasonal changes in plants and animals."⟩,
  ⟨3, "Math", 1, "Multiplication and Division",
    "Third grade math introduces multiplication and division concepts, fractions as parts of a whole, and area and perimeter. Students work with larger numbers and solve multi-step word problems."⟩,
  ⟨3, "Science", 1, "Plant and Animal Life Cycles",
    "Third grade science explores life cycles of plants and animals, adaptation and survival, and basic concepts of inheritance. Students learn how organisms grow, reproduce, and adapt to their environments."⟩,
  ⟨4, "Math", 1, "Multi-digit Operations",
    "Fourth grade math focuses on multi-digit multiplication and division, equivalent fractions, and decimal notation. Students work with factors, multiples, and patterns in number sequences."⟩,
  ⟨4, "Science", 1, "Energy and Motion",
    "Fourth grade science covers energy forms (light, heat, sound, electrical, mechanical), motion and forces, and simple machines. Students explore how energy transfers and transforms in different situations."⟩,
  ⟨5, "Math", 1, "Fractions and Decimals",
    "Fifth grade math focuses on operations with fractions and decimals, volume and coordinate planes. Students learn to add, subtract, multiply, and divide fractions and decimals with understanding."⟩,
  ⟨5, "Science", 2, "Ecosystems and Environment",
    "Fifth grade science covers ecosystems, food chains and webs, water cycle, and human impact on environment. Students learn about interdependence of organisms and conservation practices."⟩,
  ⟨5, "Social", 3, "American History Foundations",
    "Fifth grade social studies covers early American history, including Native American cultures, European exploration, colonial life, and the founding of the United States."⟩,
  ⟨5, "English", 4, "Reading Comprehension and Writing",
    "Fifth grade English emphasizes reading comprehension strategies, vocabulary development, and structured writing. Students analyze texts, write narratives, and learn basic research skills."⟩,
  ⟨6, "Math", 1, "Ratios and Proportions",
    "Sixth grade math introduces ratios, rates, and proportional relationships. Students work with integers, rational numbers, and begin algebraic thinking with expressions and equations."⟩,
  ⟨6, "Science", 1, "Earth\x27s Systems",
    "Sixth grade science explores Earth\x27s systems including weather and climate, plate tectonics, and the rock cycle. Students learn about interactions between atmosphere, hydrosphere, geosphere, and biosphere."⟩,
  ⟨7, "Math", 1, "Algebraic Expressions",
    "Seventh grade math focuses on algebraic expressions and equations, proportional relationships, and probability. Students work with integers, rational numbers, and geometric constructions."⟩,
  ⟨7, "Science", 1, "Life Science Fundamentals",
    "Seventh grade science covers cell structure and function, genetics and heredity, evolution and natural selection. Students explore how organisms are organized and how traits are passed down."⟩,
  ⟨8, "Math", 1, "Linear Functions",
    "Eighth grade math introduces linear functions, systems of equations, and geometric transformations. Students work with the Pythagorean theorem, volume formulas, and scatter plots."⟩,
  ⟨8, "Science", 2, "Physical Science Basics",
    "Eighth grade science covers forces and motion, energy transfer, wave properties, and basic chemistry including atoms, elements, and chemical reactions."⟩,
  ⟨8, "Social", 3, "American History through Civil War",
    "Eighth grade social studies typically covers American history from colonial times through the Civil War, including the Constitution, westward expansion, and sectional conflicts."⟩,
  ⟨8, "English", 4, "Literary Analysis and Composition",
    "Eighth grade English focuses on literary analysis, argumentative writing, and research skills. Students read complex texts, analyze themes and literary devices, and write structured essays."⟩,
  ⟨9, "Math", 1, "Algebra I Foundations",
    "Ninth grade math typically covers Algebra I, including linear equations, quadratic functions, exponential functions, and statistical analysis. Students develop algebraic reasoning and problem-solving skills."⟩,
  ⟨9, "Science", 1, "Biology Fundamentals",
    "Ninth grade science often focuses on biology, covering cell biology, genetics, evolution, ecology, and human body systems. Students learn scientific method and conduct laboratory investigations."⟩,
  ⟨10, "Math", 1, "Geometry and Advanced Algebra",
    "Tenth grade math often includes Geometry (proofs, theorems, spatial reasoning) or Algebra II (polynomials, rational functions, logarithms, trigonometry basics)."⟩,
  ⟨10, "Science", 2, "Chemistry Foundations",
    "Tenth grade science typically covers chemistry fundamentals including atomic structure, chemical bonding, stoichiometry, and chemical reactions. Laboratory work emphasizes quantitative analysis."⟩,
  ⟨10, "Social", 3, "World History and Geography",
    "Tenth grade social studies often covers world history from ancient civilizations to modern times, with emphasis on cultural development, political systems, and global connections."⟩,
  ⟨10, "English", 4, "Advanced Composition and Literature",
    "Tenth grade English emphasizes critical analysis of literature, advanced composition techniques, research methodology, and persuasive writing. Students engage with complex themes and diverse perspectives."⟩]

/-- Keyword list for Math (`infer_subject`, line 488). -/
def math_keywords : List String :=
  ["math", "algebra", "geometry", "equation", "theorem", "fraction",
   "decimal", "multiplication", "division", "linear", "function"]

/-- Keyword list for Science (line 493). -/
def science_keywords : List String :=
  ["science", "biology", "physics", "chemistry", "ecosystem", "water cycle",
   "photosynthesis", "energy", "motion", "cell", "atom"]

/-- Keyword list for Social studies (line 498). -/
def social_keywords : List String :=
  ["history", "war", "ancient", "revolution", "civil war", "geography",
   "culture", "government", "social"]

/-- Keyword list for English (line 503). -/
def english_keywords : List String :=
  ["english", "literature", "grammar", "writing", "poem", "story", "reading"]

/-- `RAGService.infer_subject` (lines 483-507): lower-case the input, test
the four keyword lists in order Math, Science, Social, English, return the
first category with a keyword occurring as a substring, defaulting to
English. -/
def infer_subject (text : String) : String :=
  let text_lower := strLower text
  if math_keywords.any (fun k => strContains text_lower k) then "Math"
  else if science_keywords.any (fun k => strContains text_lower k) then "Science"
  else if social_keywords.any (fun k => strContains text_lower k) then "Social"
  else if english_keywords.any (fun k => strContains text_lower k) then "English"
  else "English"

/-- Opaque numeric environment: the SentenceTransformer encoder
(`self.encoder.encode`) and sklearn's `cosine_similarity`, which are
external ML/numeric capabilities of the source.  Float vectors are
modelled as lists of rationals. -/
structure EmbedEnv where
  encode : String → List ℚ
  cosSim : List ℚ → List ℚ → ℚ

/-- The canonical text embedded for a catalog entry
(`initialize_educational_knowledge_base`, line 370). -/
def entryText (e : KnowledgeEntry) : String :=
  "Grade " ++ toString e.grade ++ " " ++ e.subject ++ ": " ++
    e.chapter_name ++ " - " ++ e.content

/-- The grade/subject filter of `get_educational_knowledge`
(lines 437-442): an entry is kept unless a truthy `grade` differs from its
grade, or a truthy `subject` fails the case-insensitive substring test
`subject.lower() in entry['subject'].lower()`. -/
def matchesFilter (grade : Int) (subject : String) (e : KnowledgeEntry) : Bool :=
  (grade == 0 || e.grade == grade) &&
    (subject == "" || strContains (strLower e.subject) (strLower subject))

/-- Python truthiness of the optional `query` argument (`if not query`). -/
def queryTruthy : Option String → Bool
  | none => false
  | some s => !(s == "")

/-- The total preorder used to model `np.argsort`: compare similarity
values, breaking ties by ascending index.  A stable ascending argsort of
`sims` is exactly the sort of the index list by this relation. -/
def lexRel (sims : List ℚ) (i j : ℕ) : Prop :=
  sims.getD i 0 < sims.getD j 0 ∨ (sims.getD i 0 = sims.getD j 0 ∧ i ≤ j)

instance lexRelDecidable (sims : List ℚ) : DecidableRel (lexRel sims) := fun i j => by
  unfold lexRel; infer_instance

/-- Model of `np.argsort(sims)`: the indices `0..len-1` sorted ascending
by value, ties in ascending index order (the tie behaviour most
favourable to the specification's stable-sort claim). -/
def argsort (sims : List ℚ) : List ℕ :=
  List.insertionSort (lexRel sims) (List.range sims.length)

/-- Python's slice `a[-k:]`.  For `k = 0` this is the whole list
(`a[-0:] = a[0:] = a`); for `k ≥ 1` it keeps the last `min k len`
elements. -/
def lastSlice {α : Type} (k : ℕ) (l : List α) : List α :=
  if k = 0 then l else l.drop (l.length - k)

/-- The placeholder value used for total `getD` list access; the proofs
establish the accessed indices are always in range for this catalog. -/
def dEntry : KnowledgeEntry := default

/-- `RAGService.get_educational_knowledge` (lines 421-481).  Filter the
catalog by grade/subject; return `none` (Python `None`) if nothing
matches; with a falsy query return the first `top_k` matches; otherwise
rank the matches by cosine similarity to the query embedding via
`np.argsort(similarities)[-top_k:][::-1]` and index the filtered list.
The `educational_embeddings` cache always exists (the catalog is
non-empty, so `initialize_educational_knowledge_base` always populates
it), and its vectors are the encodings of `entryText` of each entry in
catalog order.  The surrounding `try/except` returns `None` on any
exception; this model is total, and for this catalog no list access is
out of range, so no exception path is reachable. -/
def get_educational_knowledge (env : EmbedEnv) (grade : Int) (subject : String)
    (query : Option String) (top_k : ℕ) : Option (List KnowledgeEntry) :=
  let relevant_entries := LOCAL_KNOWLEDGE_BASE.filter (matchesFilter grade subject)
  if relevant_entries.isEmpty then none
  else if !(queryTruthy query) then some (relevant_entries.take top_k)
  else
    let query_embedding := env.encode (query.getD "")
    let relevant_indices := (List.range LOCAL_KNOWLEDGE_BASE.length).filter
      (fun i => relevant_entries.contains (LOCAL_KNOWLEDGE_BASE.getD i dEntry))
    if relevant_indices.isEmpty then some (relevant_entries.take top_k)
    else
      let similarities := relevant_indices.map
        (fun i => env.cosSim query_embedding
          (env.encode (entryText (LOCAL_KNOWLEDGE_BASE.getD i dEntry))))
      let top_indices := (lastSlice top_k (argsort similarities)).reverse
      some (top_indices.map (fun i => relevant_entries.getD i dEntry))

/-- One item of a file-based knowledge base (a JSON object with `topic`
and `content` fields, cf. `_generate_embeddings_for_kb`, line 395). -/
structure FileEntry where
  topic : String
  content : String
deriving DecidableEq, Repr, Inhabited

/-- The text embedded for a file-based entry (line 395). -/
def fileEntryText (e : FileEntry) : String := e.topic ++ ": " ++ e.content

/-- Model of `np.argmax`: the first index attaining the maximum value
(NumPy documents that the first occurrence is returned). -/
def argmaxIdx : List ℚ → ℕ
  | [] => 0
  | [_] => 0
  | x :: y :: t =>
    let r := argmaxIdx (y :: t)
    if (y :: t).getD r 0 ≤ x then 0 else r + 1

/-- `_generate_embeddings_for_kb` (lines 388-402) stores an embeddings
record only for knowledge bases with non-empty data (`if not data:
return`), so `self.embeddings` holds exactly the named catalogs with at
least one entry. -/
def generate_embeddings_store (kbs : List (String × List FileEntry)) :
    List (String × List FileEntry) :=
  kbs.filter (fun kb => !kb.2.isEmpty)

/-- `RAGService.search_kb` (lines 404-419): return `None` for an unknown
knowledge-base name, otherwise embed the query, compute the cosine
similarity against every stored entry and return the entry at
`np.argmax(sim)`.  The `top_k` parameter is accepted but never used by
the source. -/
def search_kb (env : EmbedEnv) (store : List (String × List FileEntry))
    (query : String) (kb_name : String) (top_k : ℕ) : Option FileEntry :=
  match (store.find? (fun kb => kb.1 == kb_name)).map (fun kb => kb.2) with
  | none => none
  | some data =>
    let query_embedding := env.encode query
    let sim := data.map
      (fun e => env.cosSim query_embedding (env.encode (fileEntryText e)))
    let top_index := argmaxIdx sim
    some (data.getD top_index default)

/-- One Firestore document of a user's `conversation_memory` collection,
as written by `process_educational_query` (lines 604-636): role, text,
server timestamp, grade. -/
structure TurnDoc where
  role : String
  text : String
  timestamp : Int
  grade : Int
deriving DecidableEq, Repr

/-- One in-memory conversation message (`{'role': ..., 'text': ...}`). -/
structure Msg where
  role : String
  text : String
deriving DecidableEq, Repr

/-- Ordering used by `order_by('timestamp')`: ascending timestamps
(Firestore's default direction). -/
def tsRel (a b : TurnDoc) : Prop := a.timestamp ≤ b.timestamp

instance tsRelDecidable : DecidableRel tsRel := fun a b => by
  unfold tsRel; infer_instance

/-- Model of the Firestore query
`conversation_memory_ref.order_by('timestamp').limit(10).stream()` plus
the loading loop (lines 587-592): sort the user's documents by ascending
timestamp, keep the first `limit`, and turn each into a role/text
message.  Every document in this collection is written with both `role`
and `text` fields, so the `'role' in data and 'text' in data` check
always passes. -/
def load_recent (docs : List TurnDoc) (limit : ℕ) : List Msg :=
  (((List.insertionSort tsRel docs).take limit).map (fun d => ⟨d.role, d.text⟩))

/-- A `parts` element of a Gemini response candidate; the `text` key may
be absent (`none`). -/
structure GenPart where
  text : Option String
deriving DecidableEq, Repr

/-- The `content` object of a Gemini response candidate; the `parts` key
may be absent. -/
structure GenContent where
  parts : Option (List GenPart)
deriving DecidableEq, Repr

/-- One element of the `candidates` array; `content` may be absent (an
absent or empty — hence falsy — Python dict is modelled as `none`). -/
structure GenCandidate where
  content : Option GenContent
deriving DecidableEq, Repr

/-- The parsed JSON body of a successful Gemini HTTP call; `candidates`
may be absent. -/
structure GenResult where
  candidates : Option (List GenCandidate)
deriving DecidableEq, Repr

/-- Outcome of the `requests.post` call in `ask_gemini`:
`requests.exceptions.Timeout`, any other `requests.exceptions.
RequestException` (which also covers non-2xx statuses via
`raise_for_status` and JSON decode errors of `response.json()`), or a
successful, JSON-decoded body. -/
inductive HttpOutcome
  | timeout
  | requestError
  | success (result : GenResult)

/-- A Python exception that escapes the modelled code uncaught. -/
inductive PyErr
  | keyError
deriving DecidableEq, Repr

/-- Python truthiness of the `GEMINI_API_KEY` check (line 511):
`if not GEMINI_API_KEY or GEMINI_API_KEY == "YOUR_GEMINI_API_KEY_HERE"`. -/
def gemini_key_missing (key : String) : Bool :=
  key == "" || key == "YOUR_GEMINI_API_KEY_HERE"

/-- The prompt template of `ask_gemini` (lines 515-526); only the last 5
history messages are rendered (`conversation_history[-5:]`). -/
def build_prompt (user_message : String) (grade : Int)
    (conversation_history : List Msg) (retrieved_knowledge : String) : String :=
  "You are a helpful educational assistant for a " ++ toString grade ++
    "th grade student.\n\nHere is the current conversation history:\n" ++
    String.intercalate "\n"
      ((lastSlice 5 conversation_history).map (fun m => m.role ++ ": " ++ m.text)) ++
    "\n\nHere is some relevant knowledge base information for " ++ toString grade ++
    "th grade:\n" ++
    (if retrieved_knowledge == "" then
      "No specific knowledge found in the knowledge base."
    else retrieved_knowledge) ++
    "\n\nBased on the conversation history and the provided knowledge, please answer the user\x27s question: \"" ++
    user_message ++
    "\"\n\nPlease provide a comprehensive and age-appropriate answer for a " ++
    toString grade ++
    "th grade student. If the knowledge base doesn\x27t contain specific information, use your general knowledge to provide a helpful educational response.\n"

/-- `RAGService.ask_gemini` (lines 509-568).  A missing API key returns a
fixed error string without calling the API.  A timeout or transport
failure is caught and mapped to a fixed apology/error string.  On a
successful call the code extracts
`result['candidates'][0]['content']['parts'][0]['text']` behind a
truthiness guard on `candidates`, `content` and `parts`; a first part
without a `text` key escapes the guard and raises an uncaught
`KeyError`. -/
def ask_gemini (key : String) (outcome : HttpOutcome) (user_message : String)
    (grade : Int) (conversation_history : List Msg)
    (retrieved_knowledge : String) : Except PyErr String :=
  if gemini_key_missing key then
    Except.ok "❌ Error: Gemini API key not configured. Please set your GEMINI_API_KEY environment variable."
  else
    let _prompt := build_prompt user_message grade conversation_history retrieved_knowledge
    match outcome with
    | .timeout => Except.ok "I\x27m sorry, the request timed out. Please try again."
    | .requestError =>
      Except.ok "I encountered an error while processing your request. Please try again."
    | .success result =>
      match result.candidates with
      | some (c0 :: _) =>
        match c0.content with
        | some content =>
          match content.parts with
          | some (p0 :: _) =>
            match p0.text with
            | some t => Except.ok t
            | none => Except.error PyErr.keyError
          | _ => Except.ok "I\x27m sorry, I couldn\x27t generate a response. Please try again."
        | none => Except.ok "I\x27m sorry, I couldn\x27t generate a response. Please try again."
      | _ => Except.ok "I\x27m sorry, I couldn\x27t generate a response. Please try again."

/-- Outcome of the two `conversation_memory_ref.add(...)` calls inside
the saving `try` block (lines 640-646): both succeed, the first raises
(nothing stored), or the second raises (only the user turn stored).  Any
raise is caught and logged. -/
inductive SaveOutcome
  | bothOk
  | firstFails
  | secondFails

/-- Model of Firestore's `SERVER_TIMESTAMP` for this user's collection:
strictly greater than every timestamp already present. -/
def next_timestamp (docs : List TurnDoc) : Int :=
  (docs.map (fun d => d.timestamp)).foldr max 0 + 1

/-- Effect of the saving `try` block on the user's collection. -/
def save_turns (docs : List TurnDoc) (save : SaveOutcome)
    (user_question response : String) (grade : Int) : List TurnDoc :=
  match save with
  | .bothOk =>
    docs ++ [⟨"user", user_question, next_timestamp docs, grade⟩,
      ⟨"model", response, next_timestamp docs + 1, grade⟩]
  | .firstFails => docs
  | .secondFails => docs ++ [⟨"user", user_question, next_timestamp docs, grade⟩]

/-- `RAGService.process_educational_query` (lines 570-650).  `db` is the
user's `conversation_memory` collection when Firebase is available,
`none` otherwise; `loadOk`/`save` model transient Firestore failures of
the history load (caught, degrades to `[]`) and of the two appends
(caught).  The first component is the returned string, or the uncaught
Python exception raised by the awaited `ask_gemini`; the second is the
collection afterwards. -/
def process_educational_query (env : EmbedEnv) (key : String)
    (outcome : HttpOutcome) (db : Option (List TurnDoc)) (loadOk : Bool)
    (save : SaveOutcome) (user_question user_id : String) (grade : Int) :
    Except PyErr String × Option (List TurnDoc) :=
  let loaded : List Msg :=
    match db with
    | some docs => if loadOk then load_recent docs 10 else []
    | none => []
  let current_conversation_history := loaded ++ [⟨"user", user_question⟩]
  let inferred_subject := infer_subject user_question
  let educational_entries :=
    get_educational_knowledge env grade inferred_subject (some user_question) 3
  let retrieved_knowledge :=
    match educational_entries with
    | some (e :: es) =>
      String.intercalate "\n\n"
        ((e :: es).map (fun en => "Chapter: " ++ en.chapter_name ++ " - " ++ en.content))
    | _ => ""
  match ask_gemini key outcome user_question grade current_conversation_history
      retrieved_knowledge with
  | .error e => (Except.error e, db)
  | .ok gemini_response =>
    let db2 :=
      match db with
      | some docs => some (save_turns docs save user_question gemini_response grade)
      | none => none
    (Except.ok gemini_response, db2)

/-- A trivial concrete environment used for the closed evaluations. -/
def constEnv : EmbedEnv := ⟨fun _ => [], fun _ _ => 0⟩

set_option maxRecDepth 100000

/-- C4 counterexample: on the input of the claim, `infer_subject` does
not return `Math` — none of the Math keywords occurs in the lower-cased
string "what is 2+2 and how do plants grow?" (neither does any Science,
Social or English keyword). -/
theorem infer_subject_two_plus_two_not_math :
    infer_subject "What is 2+2 and how do plants grow?" ≠ "Math" := by decide

/-- C4 (amended): `infer_subject "What is 2+2 and how do plants grow?"`
returns `English` via the default fallback, because no keyword of any
category occurs as a substring of the lower-cased input. -/
theorem infer_subject_two_plus_two_english :
    infer_subject "What is 2+2 and how do plants grow?" = "English" := by decide

/-- C5: `infer_subject` checks the categories in the priority order Math,
Science, Social, English: any input matching a Math keyword yields
`Math` (in particular one that also matches a Science keyword); a Science
match without a Math match yields `Science`; a Social match without
Math/Science yields `Social`; and with no Math, Science or Social match
the result is `English` (whether or not an English keyword matches). -/
theorem infer_subject_priority :
    (∀ s : String,
      math_keywords.any (fun k => strContains (strLower s) k) = true →
        infer_subject s = "Math") ∧
    (∀ s : String,
      math_keywords.any (fun k => strContains (strLower s) k) = false →
      science_keywords.any (fun k => strContains (strLower s) k) = true →
        infer_subject s = "Science") ∧
    (∀ s : String,
      math_keywords.any (fun k => strContains (strLower s) k) = false →
      science_keywords.any (fun k => strContains (strLower s) k) = false →
      social_keywords.any (fun k => strContains (strLower s) k) = true →
        infer_subject s = "Social") ∧
    (∀ s : String,
      math_keywords.any (fun k => strContains (strLower s) k) = false →
      science_keywords.any (fun k => strContains (strLower s) k) = false →
      social_keywords.any (fun k => strContains (strLower s) k) = false →
        infer_subject s = "English") := by
  refine ⟨fun s h => ?_, fun s h1 h2 => ?_, fun s h1 h2 h3 => ?_, fun s h1 h2 h3 => ?_⟩
  · simp [infer_subject, h]
  · simp [infer_subject, h1, h2]
  · simp [infer_subject, h1, h2, h3]
  · by_cases h4 : english_keywords.any (fun k => strContains (strLower s) k) = true
    · simp [infer_subject, h1, h2, h3, h4]
    · simp [infer_subject, h1, h2, h3, h4]

/-- Witness for C5 at concrete inputs: "algebra energy" matches both a
Math and a Science keyword and resolves to Math; "energy" to Science;
"history" to Social; "zzz" matches nothing and falls back to English. -/
theorem infer_subject_priority_witness :
    infer_subject "algebra energy" = "Math" ∧
      infer_subject "energy" = "Science" ∧
      infer_subject "history" = "Social" ∧
      infer_subject "zzz" = "English" :=
  ⟨infer_subject_priority.1 "algebra energy" (by decide),
    infer_subject_priority.2.1 "energy" (by decide) (by decide),
    infer_subject_priority.2.2.1 "history" (by decide) (by decide) (by decide),
    infer_subject_priority.2.2.2 "zzz" (by decide) (by decide) (by decide)⟩

/-- C1 (amended): whenever the grade/subject filter leaves no catalog
entry, `get_educational_knowledge` returns Python `None` (the code's
no-content sentinel, `Option.none` here) — not an empty list — and never
raises: the whole body is a total computation wrapped in a
`try/except` that would itself return `None`. -/
theorem retrieve_no_match_none (env : EmbedEnv) (grade : Int) (subject : String)
    (query : Option String) (top_k : ℕ)
    (h : LOCAL_KNOWLEDGE_BASE.filter (matchesFilter grade subject) = []) :
    get_educational_knowledge env grade subject query top_k = none := by
  unfold get_educational_knowledge
  simp [h]

/-- Witness for C1: grade 2 has no Social entry, and retrieval returns
`none` there. -/
theorem retrieve_no_match_none_witness :
    get_educational_knowledge constEnv 2 "Social" (some "q") 5 = none :=
  retrieve_no_match_none constEnv 2 "Social" (some "q") 5 (by decide)

/-- C1 counterexample: grade 1 with subject "Social" matches no catalog
entry, yet the operation returns `none` (Python `None`), which is not an
empty sequence (`some []`). -/
theorem retrieve_no_match_counterexample :
    LOCAL_KNOWLEDGE_BASE.filter (matchesFilter 1 "Social") = [] ∧
      get_educational_knowledge constEnv 1 "Social" none 3 = none ∧
      get_educational_knowledge constEnv 1 "Social" none 3 ≠ some [] := by
  refine ⟨by decide, by decide, by decide⟩

/-- C8: with a falsy query (absent or empty) and a non-empty filtered
candidate set, retrieval returns the first `top_k` filtered entries in
catalog order.  The environment `env` (encoder and cosine similarity)
does not occur on the right-hand side: no embedding or similarity
computation influences the result. -/
theorem retrieve_empty_query (env : EmbedEnv) (grade : Int) (subject : String)
    (query : Option String) (top_k : ℕ)
    (hq : queryTruthy query = false)
    (hne : LOCAL_KNOWLEDGE_BASE.filter (matchesFilter grade subject) ≠ []) :
    get_educational_knowledge env grade subject query top_k
      = some ((LOCAL_KNOWLEDGE_BASE.filter (matchesFilter grade subject)).take top_k) := by
  unfold get_educational_knowledge
  simp [hq, hne]

/-- Witness for C8, the claim's boundary case: `retrieve(query="",
grade=1, subject="Math", top_k=2)` returns the (single) grade-1 Math
entry, in catalog order. -/
theorem retrieve_empty_query_witness :
    get_educational_knowledge constEnv 1 "Math" (some "") 2
        = some ((LOCAL_KNOWLEDGE_BASE.filter (matchesFilter 1 "Math")).take 2) ∧
      get_educational_knowledge constEnv 1 "Math" (some "") 2
        = some [LOCAL_KNOWLEDGE_BASE.getD 0 dEntry] :=
  ⟨retrieve_empty_query constEnv 1 "Math" (some "") 2 (by decide) (by decide),
    by decide⟩

/-- C7: when the API key is configured, a `requests` timeout makes
`ask_gemini` return the fixed apology string, and any other transport
failure (`RequestException`) the fixed error string; neither raises. -/
theorem ask_gemini_failure_strings (key user_message : String) (grade : Int)
    (hist : List Msg) (retrieved : String)
    (hkey : gemini_key_missing key = false) :
    ask_gemini key HttpOutcome.timeout user_message grade hist retrieved
        = Except.ok "I\x27m sorry, the request timed out. Please try again." ∧
      ask_gemini key HttpOutcome.requestError user_message grade hist retrieved
        = Except.ok "I encountered an error while processing your request. Please try again." := by
  constructor <;> simp [ask_gemini, hkey]

/-- Witness for C7 at a concrete configured key. -/
theorem ask_gemini_failure_strings_witness :
    ask_gemini "K" HttpOutcome.timeout "q" 8 [] ""
        = Except.ok "I\x27m sorry, the request timed out. Please try again." ∧
      ask_gemini "K" HttpOutcome.requestError "q" 8 [] ""
        = Except.ok "I encountered an error while processing your request. Please try again." :=
  ask_gemini_failure_strings "K" "q" 8 [] "" (by decide)

/-- A user's collection holding eleven turns with increasing server
timestamps 1..11. -/
def elevenDocs : List TurnDoc :=
  [⟨"user", "m1", 1, 8⟩, ⟨"model", "m2", 2, 8⟩, ⟨"user", "m3", 3, 8⟩,
    ⟨"model", "m4", 4, 8⟩, ⟨"user", "m5", 5, 8⟩, ⟨"model", "m6", 6, 8⟩,
    ⟨"user", "m7", 7, 8⟩, ⟨"model", "m8", 8, 8⟩, ⟨"user", "m9", 9, 8⟩,
    ⟨"model", "m10", 10, 8⟩, ⟨"user", "m11", 11, 8⟩]

/-- C2: for a user with eleven stored turns, the history load of
`process_educational_query` (`order_by('timestamp').limit(10)`, i.e. the
first ten documents of the ascending stream) returns the ten OLDEST
turns m1..m10, not the ten most recent m2..m11 the claim describes. -/
theorem load_recent_keeps_oldest :
    load_recent elevenDocs 10
        = [⟨"user", "m1"⟩, ⟨"model", "m2"⟩, ⟨"user", "m3"⟩, ⟨"model", "m4"⟩,
          ⟨"user", "m5"⟩, ⟨"model", "m6"⟩, ⟨"user", "m7"⟩, ⟨"model", "m8"⟩,
          ⟨"user", "m9"⟩, ⟨"model", "m10"⟩] ∧
      load_recent elevenDocs 10
        ≠ [⟨"model", "m2"⟩, ⟨"user", "m3"⟩, ⟨"model", "m4"⟩, ⟨"user", "m5"⟩,
          ⟨"model", "m6"⟩, ⟨"user", "m7"⟩, ⟨"model", "m8"⟩, ⟨"user", "m9"⟩,
          ⟨"model", "m10"⟩, ⟨"user", "m11"⟩] := by
  refine ⟨by decide, by decide⟩

/-- C10: when the generation call fails (timeout or transport error) and
the persistence store is available and its two appends succeed,
`process_educational_query` still appends both the user turn and a model
turn whose text is the corresponding fixed apology/error string — the
stored history does not stay unchanged on generation failure. -/
theorem generation_failure_still_saves (env : EmbedEnv) (key : String)
    (docs : List TurnDoc) (loadOk : Bool) (q uid : String) (g : Int)
    (hkey : gemini_key_missing key = false) :
    (process_educational_query env key HttpOutcome.timeout (some docs) loadOk
          SaveOutcome.bothOk q uid g).2
        = some (docs ++ [⟨"user", q, next_timestamp docs, g⟩,
            ⟨"model", "I\x27m sorry, the request timed out. Please try again.",
              next_timestamp docs + 1, g⟩]) ∧
      (process_educational_query env key HttpOutcome.requestError (some docs) loadOk
          SaveOutcome.bothOk q uid g).2
        = some (docs ++ [⟨"user", q, next_timestamp docs, g⟩,
            ⟨"model", "I encountered an error while processing your request. Please try again.",
              next_timestamp docs + 1, g⟩]) := by
  constructor <;> simp [process_educational_query, ask_gemini, hkey, save_turns]

/-- Witness for C10 with a configured key and an empty collection. -/
theorem generation_failure_still_saves_witness :
    (process_educational_query constEnv "K" HttpOutcome.timeout (some []) true
          SaveOutcome.bothOk "hi" "u" 8).2
        = some [⟨"user", "hi", 1, 8⟩,
            ⟨"model", "I\x27m sorry, the request timed out. Please try again.", 2, 8⟩] ∧
      (process_educational_query constEnv "K" HttpOutcome.requestError (some []) true
          SaveOutcome.bothOk "hi" "u" 8).2
        = some [⟨"user", "hi", 1, 8⟩,
            ⟨"model", "I encountered an error while processing your request. Please try again.", 2, 8⟩] :=
  generation_failure_still_saves constEnv "K" [] true "hi" "u" 8 (by decide)

/-- A generation outcome is well-shaped when, in case of a successful
call whose body passes the code's truthiness guard (non-empty
`candidates`, truthy `content`, non-empty `parts`), the first part
carries a `text` field.  Timeouts, transport errors and guard-failing
bodies are always well-shaped. -/
def okShaped (o : HttpOutcome) : Prop :=
  match o with
  | .success r =>
    match r.candidates with
    | some (c0 :: _) =>
      match c0.content with
      | some ct =>
        match ct.parts with
        | some (p0 :: _) => p0.text ≠ none
        | _ => True
      | none => True
    | _ => True
  | _ => True

/-- For a well-shaped outcome, `ask_gemini` returns `Except.ok` of some
string, uniformly in the message, grade, history and grounding text. -/
theorem ask_gemini_ok_of_okShaped (key : String) (outcome : HttpOutcome)
    (h : okShaped outcome) :
    ∃ s, ∀ (m : String) (g : Int) (hist : List Msg) (ret : String),
      ask_gemini key outcome m g hist ret = Except.ok s := by
  by_cases hk : gemini_key_missing key
  · exact ⟨"\u274c Error: Gemini API key not configured. Please set your GEMINI_API_KEY environment variable.",
      fun m g hist ret => by simp [ask_gemini, hk]⟩
  · cases outcome with
    | timeout =>
      exact ⟨"I\x27m sorry, the request timed out. Please try again.",
        fun m g hist ret => by simp [ask_gemini, hk]⟩
    | requestError =>
      exact ⟨"I encountered an error while processing your request. Please try again.",
        fun m g hist ret => by simp [ask_gemini, hk]⟩
    | success r =>
      match hr : r.candidates with
      | none =>
        exact ⟨"I\x27m sorry, I couldn\x27t generate a response. Please try again.",
          fun m g hist ret => by simp [ask_gemini, hk, hr]⟩
      | some [] =>
        exact ⟨"I\x27m sorry, I couldn\x27t generate a response. Please try again.",
          fun m g hist ret => by simp [ask_gemini, hk, hr]⟩
      | some (c0 :: cs) =>
        match hc : c0.content with
        | none =>
          exact ⟨"I\x27m sorry, I couldn\x27t generate a response. Please try again.",
            fun m g hist ret => by simp [ask_gemini, hk, hr, hc]⟩
        | some ct =>
          match hp : ct.parts with
          | none =>
            exact ⟨"I\x27m sorry, I couldn\x27t generate a response. Please try again.",
              fun m g hist ret => by simp [ask_gemini, hk, hr, hc, hp]⟩
          | some [] =>
            exact ⟨"I\x27m sorry, I couldn\x27t generate a response. Please try again.",
              fun m g hist ret => by simp [ask_gemini, hk, hr, hc, hp]⟩
          | some (p0 :: ps) =>
            match ht : p0.text with
            | some t => exact ⟨t, fun m g hist ret => by simp [ask_gemini, hk, hr, hc, hp, ht]⟩
            | none =>
              exfalso
              simp [okShaped, hr, hc, hp, ht] at h

/-- C6 (amended): for every environment, key, persistence state and
generation outcome whose successful body is well-shaped (first part has
a `text` field whenever the guard passes), `process_educational_query`
returns `Except.ok` of a string — no exception from generation,
persistence or retrieval propagates.  (The unamended claim fails: see
the counterexample for the `KeyError` escape and the empty return.) -/
theorem process_query_total_of_okShaped (env : EmbedEnv) (key : String)
    (outcome : HttpOutcome) (db : Option (List TurnDoc)) (loadOk : Bool)
    (save : SaveOutcome) (q uid : String) (g : Int)
    (h : okShaped outcome) :
    ∃ s, (process_educational_query env key outcome db loadOk save q uid g).1
      = Except.ok s := by
  obtain ⟨s, hs⟩ := ask_gemini_ok_of_okShaped key outcome h
  refine ⟨s, ?_⟩
  unfold process_educational_query
  simp only [hs]

/-- Witness for C6 at a concrete input (a timeout outcome, no store). -/
theorem process_query_total_witness :
    ∃ s, (process_educational_query constEnv "K" HttpOutcome.timeout none true
      SaveOutcome.bothOk "hi" "u" 8).1 = Except.ok s :=
  process_query_total_of_okShaped constEnv "K" HttpOutcome.timeout none true
    SaveOutcome.bothOk "hi" "u" 8 trivial

/-- A successful Gemini body passing the truthiness guard whose first
part lacks the `text` key. -/
def malformedPartOutcome : HttpOutcome :=
  HttpOutcome.success ⟨some [⟨some ⟨some [⟨none⟩]⟩⟩]⟩

/-- A successful Gemini body whose first part carries an empty text. -/
def emptyTextOutcome : HttpOutcome :=
  HttpOutcome.success ⟨some [⟨some ⟨some [⟨some ""⟩]⟩⟩]⟩

/-- C6 counterexample: with a configured key, a successful response whose
first part lacks the `text` field makes `process_educational_query`
raise an uncaught `KeyError` (so an exception does propagate to the
caller), and a response whose text is `""` makes it return the empty
string (so the returned value can be empty). -/
theorem process_query_exception_or_empty :
    (process_educational_query constEnv "K" malformedPartOutcome none true
          SaveOutcome.bothOk "hi" "u" 8).1 = Except.error PyErr.keyError ∧
      (process_educational_query constEnv "K" emptyTextOutcome none true
          SaveOutcome.bothOk "hi" "u" 8).1 = Except.ok "" := by
  constructor <;> rfl

/-- Reading a mapped list totally at an in-range index. -/
theorem getD_map_of_lt {α β : Type} (f : α → β) (l : List α) (i : ℕ) (d : α) (db : β)
    (h : i < l.length) : (l.map f).getD i db = f (l.getD i d) := by
  rw [List.getD_eq_getElem (l.map f) db (by simpa using h), List.getD_eq_getElem l d h,
    List.getElem_map]

/-- The cosine similarity the service computes between a query and a
stored file-based entry. -/
def file_sim (env : EmbedEnv) (query : String) (e : FileEntry) : ℚ :=
  env.cosSim (env.encode query) (env.encode (fileEntryText e))

/-- `argmaxIdx` returns an in-range index attaining the maximum value
(the first one, per NumPy's documented behaviour). -/
theorem argmaxIdx_spec (l : List ℚ) (hl : l ≠ []) :
    argmaxIdx l < l.length ∧ ∀ j, j < l.length → l.getD j 0 ≤ l.getD (argmaxIdx l) 0 := by
  induction l with
  | nil => exact absurd rfl hl
  | cons x xs ih =>
    cases xs with
    | nil =>
      refine ⟨Nat.zero_lt_one, fun j hj => ?_⟩
      have hj0 : j = 0 := by simpa using hj
      subst hj0
      exact le_refl _
    | cons y t =>
      obtain ⟨ihlt, ihmax⟩ := ih (by simp)
      have hunf : argmaxIdx (x :: y :: t)
          = if (y :: t).getD (argmaxIdx (y :: t)) 0 ≤ x then 0
            else argmaxIdx (y :: t) + 1 := rfl
      by_cases hc : (y :: t).getD (argmaxIdx (y :: t)) 0 ≤ x
      · rw [hunf, if_pos hc]
        refine ⟨by simp, fun j hj => ?_⟩
        cases j with
        | zero => exact le_refl _
        | succ j =>
          rw [List.getD_cons_succ, List.getD_cons_zero]
          exact le_trans (ihmax j (by simpa using hj)) hc
      · rw [hunf, if_neg hc]
        refine ⟨by simpa using ihlt, fun j hj => ?_⟩
        rw [List.getD_cons_succ]
        cases j with
        | zero =>
          rw [List.getD_cons_zero]
          exact le_of_lt (lt_of_not_le hc)
        | succ j =>
          rw [List.getD_cons_succ]
          exact ihmax j (by simpa using hj)

/-- C9: on every knowledge base present in the embeddings store built by
`_generate_embeddings_for_kb`, `search_kb` ignores its `top_k` parameter
entirely and returns exactly one entry, one attaining the maximal cosine
similarity to the query among all stored entries. -/
theorem search_kb_argmax (env : EmbedEnv) (kbs : List (String × List FileEntry))
    (query kb_name : String) (k1 k2 : ℕ) (p : String × List FileEntry)
    (hfind : (generate_embeddings_store kbs).find? (fun kb => kb.1 == kb_name) = some p) :
    search_kb env (generate_embeddings_store kbs) query kb_name k1
        = search_kb env (generate_embeddings_store kbs) query kb_name k2 ∧
      ∃ e, search_kb env (generate_embeddings_store kbs) query kb_name k1 = some e ∧
        e ∈ p.2 ∧ ∀ e2 ∈ p.2, file_sim env query e2 ≤ file_sim env query e := by
  refine ⟨rfl, ?_⟩
  have hmem : p ∈ generate_embeddings_store kbs := List.mem_of_find?_eq_some hfind
  have hpred : (!p.2.isEmpty) = true := (List.mem_filter.1 hmem).2
  have hne : p.2 ≠ [] := by
    intro habs
    rw [habs] at hpred
    simp at hpred
  have hsim :
      (p.2.map (fun e => env.cosSim (env.encode query) (env.encode (fileEntryText e)))) ≠ [] := by
    simpa using hne
  obtain ⟨hlt0, hmax⟩ := argmaxIdx_spec _ hsim
  have hlt : argmaxIdx (p.2.map (fun e =>
      env.cosSim (env.encode query) (env.encode (fileEntryText e)))) < p.2.length := by
    simpa using hlt0
  unfold search_kb
  rw [hfind]
  refine ⟨p.2.getD (argmaxIdx (p.2.map (fun e =>
      env.cosSim (env.encode query) (env.encode (fileEntryText e))))) default, rfl, ?_, ?_⟩
  · rw [List.getD_eq_getElem p.2 default hlt]
    exact List.getElem_mem hlt
  · intro e2 he2
    obtain ⟨j, hj, hje⟩ := List.mem_iff_getElem.1 he2
    have hmaxj := hmax j (by simpa using hj)
    have h1 := getD_map_of_lt
      (fun e => env.cosSim (env.encode query) (env.encode (fileEntryText e))) p.2 j default 0 hj
    rw [List.getD_eq_getElem p.2 default hj, hje] at h1
    have h2 := getD_map_of_lt
      (fun e => env.cosSim (env.encode query) (env.encode (fileEntryText e))) p.2
      (argmaxIdx (p.2.map (fun e =>
        env.cosSim (env.encode query) (env.encode (fileEntryText e))))) default 0 hlt
    rw [h1, h2] at hmaxj
    exact hmaxj

/-- Witness for C9: a one-entry knowledge base named "kb"; the result is
that entry for any `top_k`. -/
theorem search_kb_argmax_witness :
    search_kb constEnv (generate_embeddings_store [("kb", [⟨"t", "c"⟩])]) "q" "kb" 1
        = search_kb constEnv (generate_embeddings_store [("kb", [⟨"t", "c"⟩])]) "q" "kb" 5 ∧
      ∃ e, search_kb constEnv (generate_embeddings_store [("kb", [⟨"t", "c"⟩])]) "q" "kb" 1
          = some e ∧
        e ∈ [(⟨"t", "c"⟩ : FileEntry)] ∧
        ∀ e2 ∈ [(⟨"t", "c"⟩ : FileEntry)],
          file_sim constEnv "q" e2 ≤ file_sim constEnv "q" e :=
  search_kb_argmax constEnv [("kb", [⟨"t", "c"⟩])] "q" "kb" 1 5 ("kb", [⟨"t", "c"⟩]) (by decide)

/-- The similarity score the retrieval path computes for one catalog
entry against the query. -/
def entry_sim (env : EmbedEnv) (qs : String) (e : KnowledgeEntry) : ℚ :=
  env.cosSim (env.encode qs) (env.encode (entryText e))

/-- The position of an entry in the fixed catalog ("original catalog
order" in the specification's words).  The catalog has no duplicate
entries, so this is well-defined. -/
def catalogPos (e : KnowledgeEntry) : ℕ := LOCAL_KNOWLEDGE_BASE.indexOf e

/-- Strict version of `lexRel`: smaller value, or equal value and
strictly smaller index. -/
def lexLt (sims : List ℚ) (i j : ℕ) : Prop :=
  sims.getD i 0 < sims.getD j 0 ∨ (sims.getD i 0 = sims.getD j 0 ∧ i < j)

theorem lexRel_total (sims : List ℚ) : ∀ i j, lexRel sims i j ∨ lexRel sims j i := by
  intro i j
  rcases lt_trichotomy (sims.getD i 0) (sims.getD j 0) with h | h | h
  · exact Or.inl (Or.inl h)
  · rcases Nat.le_total i j with hij | hij
    · exact Or.inl (Or.inr ⟨h, hij⟩)
    · exact Or.inr (Or.inr ⟨h.symm, hij⟩)
  · exact Or.inr (Or.inl h)

theorem lexRel_trans (sims : List ℚ) :
    ∀ i j k, lexRel sims i j → lexRel sims j k → lexRel sims i k := by
  intro i j k hij hjk
  rcases hij with h1 | ⟨h1, h1i⟩
  · rcases hjk with h2 | ⟨h2, _⟩
    · exact Or.inl (lt_trans h1 h2)
    · exact Or.inl (h2 ▸ h1)
  · rcases hjk with h2 | ⟨h2, h2i⟩
    · exact Or.inl (h1 ▸ h2)
    · exact Or.inr ⟨h1.trans h2, le_trans h1i h2i⟩

theorem lexRel_lt_of_ne (sims : List ℚ) (i j : ℕ) (h : lexRel sims i j) (hne : i ≠ j) :
    lexLt sims i j := by
  rcases h with h | ⟨h, hle⟩
  · exact Or.inl h
  · exact Or.inr ⟨h, lt_of_le_of_ne hle hne⟩

theorem argsort_perm (sims : List ℚ) : (argsort sims).Perm (List.range sims.length) :=
  List.perm_insertionSort _ _

theorem argsort_sorted (sims : List ℚ) : (argsort sims).Sorted (lexRel sims) := by
  haveI : IsTotal ℕ (lexRel sims) := ⟨lexRel_total sims⟩
  haveI : IsTrans ℕ (lexRel sims) := ⟨lexRel_trans sims⟩
  exact List.sorted_insertionSort _ _

theorem argsort_nodup (sims : List ℚ) : (argsort sims).Nodup :=
  (argsort_perm sims).nodup_iff.2 (List.nodup_range sims.length)

theorem mem_argsort (sims : List ℚ) (i : ℕ) : i ∈ argsort sims ↔ i < sims.length := by
  rw [(argsort_perm sims).mem_iff, List.mem_range]

/-- The modelled `np.argsort` output is strictly increasing in the
value-then-index lexicographic order. -/
theorem argsort_pairwise_lexLt (sims : List ℚ) :
    (argsort sims).Pairwise (lexLt sims) := by
  have h1 : (argsort sims).Pairwise (lexRel sims) := argsort_sorted sims
  have h2 : (argsort sims).Pairwise (fun a b => a ≠ b) := argsort_nodup sims
  exact (h1.and h2).imp (fun hab => lexRel_lt_of_ne sims _ _ hab.1 hab.2)

theorem lastSlice_sublist {α : Type} (k : ℕ) (l : List α) : (lastSlice k l).Sublist l := by
  unfold lastSlice
  split
  · exact List.Sublist.refl l
  · exact List.drop_sublist _ l

theorem lastSlice_length_le {α : Type} (k : ℕ) (l : List α) (hk : 1 ≤ k) :
    (lastSlice k l).length ≤ k := by
  unfold lastSlice
  rw [if_neg (by omega), List.length_drop]
  omega

/-- A filtered list equals the in-range filtered indices mapped through
total indexing: the alignment between `relevant_entries` and
`relevant_indices` in `get_educational_knowledge`. -/
theorem filter_eq_map_filter_range {α : Type} (p : α → Bool) (d : α) :
    ∀ l : List α,
      l.filter p
        = ((List.range l.length).filter (fun i => p (l.getD i d))).map
            (fun i => l.getD i d) := by
  intro l
  induction l with
  | nil => rfl
  | cons a t ih =>
    rw [List.length_cons, List.range_succ_eq_map, List.filter_cons, List.filter_cons]
    simp only [List.filter_map, List.map_map, List.getD_cons_zero]
    by_cases hp : p a
    · simp [hp, ih, Function.comp_def]
    · simp [hp, ih, Function.comp_def]

/-- Membership of a total in-range read of a filtered list reduces to the
predicate (the `entry in relevant_entries` test of the source, for lists
without duplicates or not — no duplicate hypothesis is needed here). -/
theorem contains_filter_getD {α : Type} [DecidableEq α] (p : α → Bool) (l : List α) (d : α)
    (i : ℕ) (h : i < l.length) :
    (l.filter p).contains (l.getD i d) = p (l.getD i d) := by
  have hmem : l.getD i d ∈ l := by
    rw [List.getD_eq_getElem l d h]
    exact List.getElem_mem h
  by_cases hp : p (l.getD i d) = true
  · rw [hp]
    exact List.elem_iff.2 (List.mem_filter.2 ⟨hmem, hp⟩)
  · have hb : p (l.getD i d) = false := by simpa using hp
    rw [hb]
    cases hcc : (l.filter p).contains (l.getD i d) with
    | false => rfl
    | true =>
      have : l.getD i d ∈ l.filter p := List.elem_iff.1 hcc
      have := (List.mem_filter.1 this).2
      rw [hb] at this
      exact absurd this (by simp)

/-- The fixed catalog has no duplicate entries, so "original catalog
position" is well-defined. -/
theorem catalog_nodup : LOCAL_KNOWLEDGE_BASE.Nodup := by decide

/-- Reduction of `get_educational_knowledge` on the semantic-search path:
truthy query, non-empty filtered set (hence non-empty index list). -/
theorem get_educational_knowledge_semantic (env : EmbedEnv) (grade : Int)
    (subject qs : String) (top_k : ℕ) (hq : qs ≠ "")
    (hne : LOCAL_KNOWLEDGE_BASE.filter (matchesFilter grade subject) ≠ [])
    (hIdxNe : (List.range LOCAL_KNOWLEDGE_BASE.length).filter
      (fun i => (LOCAL_KNOWLEDGE_BASE.filter (matchesFilter grade subject)).contains
        (LOCAL_KNOWLEDGE_BASE.getD i dEntry)) ≠ []) :
    get_educational_knowledge env grade subject (some qs) top_k
      = some ((lastSlice top_k (argsort
          (((List.range LOCAL_KNOWLEDGE_BASE.length).filter
            (fun i => (LOCAL_KNOWLEDGE_BASE.filter (matchesFilter grade subject)).contains
              (LOCAL_KNOWLEDGE_BASE.getD i dEntry))).map
            (fun i => env.cosSim (env.encode qs)
              (env.encode (entryText (LOCAL_KNOWLEDGE_BASE.getD i dEntry))))))).reverse.map
          (fun i => (LOCAL_KNOWLEDGE_BASE.filter (matchesFilter grade subject)).getD i dEntry)) := by
  have h1 : (LOCAL_KNOWLEDGE_BASE.filter (matchesFilter grade subject)).isEmpty = false := by
    simpa [List.isEmpty_iff] using hne
  have h2 : queryTruthy (some qs) = true := by
    simpa [queryTruthy] using hq
  have h3 : ((List.range LOCAL_KNOWLEDGE_BASE.length).filter
      (fun i => (LOCAL_KNOWLEDGE_BASE.filter (matchesFilter grade subject)).contains
        (LOCAL_KNOWLEDGE_BASE.getD i dEntry))).isEmpty = false := by
    simpa [List.isEmpty_iff] using hIdxNe
  unfold get_educational_knowledge
  simp only [h1, h2, h3, Bool.not_true, Bool.false_eq_true, if_false, Option.getD_some]

/-- C3 (amended): on the semantic-search path (non-empty query, non-empty
filtered candidate set), retrieval returns at most `top_k` entries when
`top_k ≥ 1` (for `top_k = 0` Python's `[-0:]` slice returns every
filtered entry), ordered by DESCENDING similarity score, and entries of
EQUAL similarity appear in DESCENDING original catalog position: the code
reverses an ascending argsort, so the stable tie order is inverted
relative to the claim. -/
theorem retrieve_ranked_desc (env : EmbedEnv) (grade : Int) (subject qs : String)
    (top_k : ℕ) (hq : qs ≠ "")
    (hne : LOCAL_KNOWLEDGE_BASE.filter (matchesFilter grade subject) ≠ []) :
    ∃ r, get_educational_knowledge env grade subject (some qs) top_k = some r ∧
      (1 ≤ top_k → r.length ≤ top_k) ∧
      r.Pairwise (fun a b =>
        entry_sim env qs b < entry_sim env qs a ∨
          (entry_sim env qs a = entry_sim env qs b ∧ catalogPos b < catalogPos a)) := by
  set REL := LOCAL_KNOWLEDGE_BASE.filter (matchesFilter grade subject) with hREL
  set RIDX := (List.range LOCAL_KNOWLEDGE_BASE.length).filter
    (fun i => REL.contains (LOCAL_KNOWLEDGE_BASE.getD i dEntry)) with hRIDX
  set SIMF := fun i => env.cosSim (env.encode qs)
    (env.encode (entryText (LOCAL_KNOWLEDGE_BASE.getD i dEntry))) with hSIMF
  set SIMS := RIDX.map SIMF with hSIMS
  have hcont : ∀ i ∈ List.range LOCAL_KNOWLEDGE_BASE.length,
      (REL.contains (LOCAL_KNOWLEDGE_BASE.getD i dEntry))
        = matchesFilter grade subject (LOCAL_KNOWLEDGE_BASE.getD i dEntry) := by
    intro i hi
    rw [hREL]
    exact contains_filter_getD _ _ _ i (List.mem_range.1 hi)
  have hIdxEq : RIDX = (List.range LOCAL_KNOWLEDGE_BASE.length).filter
      (fun i => matchesFilter grade subject (LOCAL_KNOWLEDGE_BASE.getD i dEntry)) := by
    rw [hRIDX]
    exact List.filter_congr hcont
  have halign : REL = RIDX.map (fun i => LOCAL_KNOWLEDGE_BASE.getD i dEntry) := by
    rw [hIdxEq, hREL]
    exact filter_eq_map_filter_range _ dEntry _
  have hIdxNe : RIDX ≠ [] := by
    intro h0
    apply hne
    rw [halign, h0]
    rfl
  have hEval := get_educational_knowledge_semantic env grade subject qs top_k hq hne hIdxNe
  rw [← hREL, ← hRIDX] at hEval
  rw [show (fun i => env.cosSim (env.encode qs)
      (env.encode (entryText (LOCAL_KNOWLEDGE_BASE.getD i dEntry)))) = SIMF from rfl] at hEval
  rw [← hSIMS] at hEval
  refine ⟨_, hEval, ?_, ?_⟩
  · intro hk
    rw [List.length_map, List.length_reverse]
    exact lastSlice_length_le _ _ hk
  · have hsimsLen : SIMS.length = RIDX.length := by
      rw [hSIMS, List.length_map]
    have hmemTop : ∀ x ∈ (lastSlice top_k (argsort SIMS)).reverse, x < RIDX.length := by
      intro x hx
      rw [List.mem_reverse] at hx
      have hx2 : x ∈ argsort SIMS := (lastSlice_sublist _ _).subset hx
      rw [mem_argsort] at hx2
      rwa [hsimsLen] at hx2
    have hmono : RIDX.Pairwise (fun a b => a < b) := by
      rw [hIdxEq]
      exact List.Pairwise.sublist (List.filter_sublist _) (List.pairwise_lt_range _)
    have hsub : ∀ x ∈ RIDX, x < LOCAL_KNOWLEDGE_BASE.length := by
      intro x hx
      rw [hIdxEq] at hx
      exact List.mem_range.1 (List.mem_filter.1 hx).1
    have hIdxmem : ∀ j, j < RIDX.length → RIDX.getD j 0 < LOCAL_KNOWLEDGE_BASE.length := by
      intro j hj
      refine hsub _ ?_
      rw [List.getD_eq_getElem _ _ hj]
      exact List.getElem_mem hj
    have hfa : ∀ a, a < RIDX.length →
        REL.getD a dEntry = LOCAL_KNOWLEDGE_BASE.getD (RIDX.getD a 0) dEntry := by
      intro a ha
      rw [halign]
      exact getD_map_of_lt _ RIDX a 0 dEntry ha
    have hsimval : ∀ a, a < RIDX.length →
        SIMS.getD a 0 = entry_sim env qs (REL.getD a dEntry) := by
      intro a ha
      rw [hfa a ha, hSIMS]
      exact getD_map_of_lt SIMF RIDX a 0 0 ha
    have hposval : ∀ a, a < RIDX.length →
        catalogPos (REL.getD a dEntry) = RIDX.getD a 0 := by
      intro a ha
      rw [hfa a ha]
      have hb := hIdxmem a ha
      rw [List.getD_eq_getElem _ _ hb]
      exact List.indexOf_getElem catalog_nodup _ hb
    have hgetmono : ∀ a b, a < RIDX.length → b < RIDX.length → a < b →
        RIDX.getD a 0 < RIDX.getD b 0 := by
      intro a b ha hb hab
      have hg := List.pairwise_iff_getElem.1 hmono a b ha hb hab
      rwa [List.getD_eq_getElem _ _ ha, List.getD_eq_getElem _ _ hb]
    rw [List.pairwise_map]
    have P1 := argsort_pairwise_lexLt SIMS
    have P2 := List.Pairwise.sublist (lastSlice_sublist top_k (argsort SIMS)) P1
    have P3 : ((lastSlice top_k (argsort SIMS)).reverse).Pairwise
        (fun a b => lexLt SIMS b a) := List.pairwise_reverse.2 P2
    refine P3.imp_of_mem ?_
    intro a b hma hmb hab
    have ha := hmemTop a hma
    have hb := hmemTop b hmb
    rcases hab with hlt | ⟨heq, hba⟩
    · left
      rw [← hsimval a ha, ← hsimval b hb]
      exact hlt
    · right
      constructor
      · rw [← hsimval a ha, ← hsimval b hb]
        exact heq.symm
      · rw [hposval a ha, hposval b hb]
        exact hgetmono b a hb ha hba

/-- Witness for C3 at a concrete input: grade 5, subject "Science",
query "ecosystems", top_k 3. -/
theorem retrieve_ranked_desc_witness :
    ∃ r, get_educational_knowledge constEnv 5 "Science" (some "ecosystems") 3 = some r ∧
      (1 ≤ 3 → r.length ≤ 3) ∧
      r.Pairwise (fun a b =>
        entry_sim constEnv "ecosystems" b < entry_sim constEnv "ecosystems" a ∨
          (entry_sim constEnv "ecosystems" a = entry_sim constEnv "ecosystems" b ∧
            catalogPos b < catalogPos a)) :=
  retrieve_ranked_desc constEnv 5 "Science" "ecosystems" 3 (by decide) (by decide)

/-- C3 counterexample: grade 10 with no subject filter and an
environment in which every cosine similarity is 0 (all candidates tie).
The code returns the grade-10 entries at catalog positions 26, 25, 24 —
in DESCENDING catalog order — which violates the claimed tie-breaking by
(ascending) original catalog position. -/
theorem retrieve_tie_order_counterexample :
    get_educational_knowledge constEnv 10 "" (some "q") 3
        = some [LOCAL_KNOWLEDGE_BASE.getD 26 dEntry, LOCAL_KNOWLEDGE_BASE.getD 25 dEntry,
            LOCAL_KNOWLEDGE_BASE.getD 24 dEntry] ∧
      ¬ List.Pairwise (fun a b =>
          entry_sim constEnv "q" b < entry_sim constEnv "q" a ∨
            (entry_sim constEnv "q" a = entry_sim constEnv "q" b ∧ catalogPos a < catalogPos b))
        [LOCAL_KNOWLEDGE_BASE.getD 26 dEntry, LOCAL_KNOWLEDGE_BASE.getD 25 dEntry,
          LOCAL_KNOWLEDGE_BASE.getD 24 dEntry] := by
  constructor
  · decide
  · intro hpw
    have h1 := (List.pairwise_cons.1 hpw).1 (LOCAL_KNOWLEDGE_BASE.getD 25 dEntry) (by simp)
    rcases h1 with h | ⟨_, hlt⟩
    · exact absurd h (by decide)
    · exact absurd hlt (by decide)
